import Mathlib

/-!
Shallow embedding of the profile-resolution and nickname-synchronization
subsystem of the `overcord` Discord bot, together with theorems checking the
natural-language specification against the code.

Sources embedded:
  * `src/classes/nickname.py` — the `Nickname` class: `exists`, `_generate`,
    `update`, `set_or_remove`.
  * `src/cogs/profile.py` — `ProfileCog.get_profiles`, `ProfileCog.select_profile`
    and the `/profile nickname` command flow.

Python strings are modelled as Lean `String` (a sequence of unicode scalar
values, matching Python's code-point semantics); Python's slice `s[:n]`,
which accepts negative indices, is modelled by `pySlice`. Database tables are
modelled as lists of rows; the external display-name mutation
(`member.edit(nick=...)`), which may fail with `discord.HTTPException`, is
modelled by a boolean outcome parameter.
-/

namespace Overcord

/-- Python's slice `s[:n]` for an arbitrary integer `n`: for `n ≥ 0` it keeps
the first `n` characters; for `n < 0` it keeps all but the last `|n|`
characters (empty when `|n| ≥ len(s)`). -/
def pySlice (s : String) (n : Int) : String :=
  if 0 ≤ n then String.mk (s.data.take n.toNat)
  else String.mk (s.data.take (s.data.length - (-n).toNat))

/-- The three gameplay roles carrying independent ratings. -/
inductive Role where
  | tank : Role
  | offense : Role
  | support : Role
deriving DecidableEq, Repr

/-- Modelled from the spec: the role glyph markers come from `utils.emojis`
(`emojis.u_tank`), a module that is not part of the embedded sources; the spec
shows them as single glyph placeholders (e.g. `🛡` for tank). -/
def u_tank : String := "🛡"

/-- Modelled from the spec: the `offense` role glyph marker from
`utils.emojis` (not part of the embedded sources). -/
def u_offense : String := "⚔"

/-- Modelled from the spec: the `support` role glyph marker from
`utils.emojis` (not part of the embedded sources). -/
def u_support : String := "⚕"

/-- The `ROLES` mapping of `src/classes/nickname.py`: role key to glyph. -/
def ROLES : Role → String
  | Role.tank => u_tank
  | Role.offense => u_offense
  | Role.support => u_support

/-- The `MAX_NICKNAME_LENGTH` constant of `src/classes/nickname.py`. -/
def MAX_NICKNAME_LENGTH : Nat := 32

/-- Per-role ratings of a profile's latest snapshot: an optional integer for
each of tank, offense, support (absent = role not played/ranked). -/
structure Ratings where
  tank : Option Nat
  offense : Option Nat
  support : Option Nat
deriving DecidableEq, Repr

/-- The rating stored for a given role. -/
def roleRating (r : Ratings) : Role → Option Nat
  | Role.tank => r.tank
  | Role.offense => r.offense
  | Role.support => r.support

/-- The canonical role order used by the encoder. -/
def canonicalRoles : List Role := [Role.tank, Role.offense, Role.support]

/-- Modelled from the spec: `Profile.resolve_ratings` lives in
`classes/profile.py`, which is not among the embedded sources. Per the spec it
yields the mapping of each role that has a rating to that rating, in the fixed
canonical order tank, offense, support; an empty result means fully unranked. -/
def resolve_ratings (r : Ratings) : List (Role × Nat) :=
  canonicalRoles.filterMap (fun ro => (roleRating r ro).map (fun v => (ro, v)))

/-- The suffix construction of `Nickname._generate` for a non-empty ratings
mapping: the loop accumulates `f"{ROLES.get(key)}{value}/"` into `tmp`, then
`tmp[:-1]` removes the last slash and the result is wrapped in `[`…`]`. -/
def suffix_of (rs : List (Role × Nat)) : String :=
  let tmp := rs.foldl (fun acc p => acc ++ ROLES p.1 ++ toString p.2 ++ "/") ""
  "[" ++ pySlice tmp (-1) ++ "]"

/-- `Nickname._generate` of `src/classes/nickname.py`, with the module constant
`MAX_NICKNAME_LENGTH` generalised to the `maxLength` parameter (the literal
`21` in the unranked branch stays the literal the source writes). `memberName`
is `self.member.name` and `r` the bound profile's resolved ratings. -/
def generate (memberName : String) (r : Ratings) (maxLength : Nat) : String :=
  let ratings := resolve_ratings r
  if ratings.isEmpty then
    pySlice memberName 21 ++ " [Unranked]"
  else
    let tmp := suffix_of ratings
    let x : Int := (maxLength : Int) - (tmp.length : Int) - 1
    let name := pySlice memberName x
    name ++ " " ++ tmp

/-- `Nickname._generate` exactly as in the source, at the source's constant. -/
def generate32 (memberName : String) (r : Ratings) : String :=
  generate memberName r MAX_NICKNAME_LENGTH

/-! ## Database model

The persisted schema used by the subsystem (`nickname`, `profile`, `rating`,
plus the `member` table joined by `get_profiles`). Tables are lists of rows. -/

/-- A row of the `profile` table: `profile(id PRIMARY KEY, member_id, platform, username)`. -/
structure ProfileRow where
  id : Nat
  member_id : Nat
  platform : String
  username : String
deriving DecidableEq, Repr

/-- A row of the `nickname` table: `nickname(id PRIMARY KEY, server_id, profile_id)`,
where `id` is the account id. `profile_id` is optional because
`Nickname.set_or_remove` takes `profile_id: None | int` and inserts it as is. -/
structure NicknameRow where
  id : Nat
  server_id : Nat
  profile_id : Option Nat
deriving DecidableEq, Repr

/-- A row of the `rating` table: `rating(profile_id, tank, damage, support, date)`
("damage" is the storage name for the offense role rating). -/
structure RatingRow where
  profile_id : Nat
  tank : Option Nat
  damage : Option Nat
  support : Option Nat
  date : Nat
deriving DecidableEq, Repr

/-- The database: the tables this subsystem reads or writes. `member` holds the
ids of known accounts (only its membership is relevant, via the join in
`get_profiles`). -/
structure DB where
  member : List Nat
  profile : List ProfileRow
  rating : List RatingRow
  nickname : List NicknameRow
deriving DecidableEq, Repr

/-- `Nickname.exists`: `SELECT EXISTS (SELECT TRUE FROM nickname WHERE id = $1)`
with `$1 = self.member.id`. -/
def nickname_exists (db : DB) (memberId : Nat) : Bool :=
  db.nickname.any (fun row => row.id == memberId)

/-- Outcome of a `Nickname` operation: the database after the operation, the
argument of the `member.edit(nick=...)` call when one was made (`some none`
is `edit(nick=None)`, clearing the name), the ephemeral follow-up messages
sent, and whether an exception propagated to the caller. -/
structure SyncResult where
  db : DB
  editNick : Option (Option String)
  messages : List String
  raised : Bool
deriving DecidableEq, Repr

/-- The follow-up message sent when `member.edit` fails with
`discord.HTTPException` in `Nickname.set_or_remove`. -/
def editFailedMsg : String := "Something bad happened while updating your nickname."

/-- `Nickname.set_or_remove` of `src/classes/nickname.py`. `editOk` is the
outcome of the external mutation `member.edit(nick=nick)`: `true` means it
succeeded, `false` that it raised `discord.HTTPException`, which the method
catches and reports. In both cases the store write that follows runs: an
`INSERT INTO nickname` when `remove` is false, a `DELETE FROM nickname
WHERE id = $1` when it is true. -/
def set_or_remove (db : DB) (memberId guildId : Nat) (memberName : String)
    (r : Ratings) (profile_id : Option Nat) (remove : Bool) (editOk : Bool) :
    SyncResult :=
  let nick : Option String :=
    if !remove then some (generate32 memberName r) else none
  let failMsgs : List String := if editOk then [] else [editFailedMsg]
  if !remove then
    { db := { db with nickname := db.nickname ++ [⟨memberId, guildId, profile_id⟩] }
      editNick := some nick
      messages := failMsgs ++ ["Nickname successfully set."]
      raised := false }
  else
    { db := { db with nickname := db.nickname.filter (fun row => row.id != memberId) }
      editNick := some nick
      messages := failMsgs ++ ["Nickname successfully removed."]
      raised := false }

/-- `Nickname.update` of `src/classes/nickname.py`: return early when no
`nickname` row exists for the member; otherwise generate the nickname and
attempt `member.edit(nick=nick)` under `try: ... except Exception: pass`, so
any mutation failure is swallowed (`editOk` is therefore irrelevant to the
outcome). No store write and no message in either case. -/
def update (db : DB) (memberId : Nat) (memberName : String) (r : Ratings)
    (editOk : Bool) : SyncResult :=
  if !nickname_exists db memberId then
    { db := db, editNick := none, messages := [], raised := false }
  else
    { db := db
      editNick := some (some (generate32 memberName r))
      messages := []
      raised := false }

/-! ## Profile selection (`src/cogs/profile.py`) -/

/-- `ProfileCog.get_profiles`: `SELECT profile.id, platform, username FROM
profile INNER JOIN member ON member.id = profile.member_id WHERE member.id = $1
LIMIT $2`. -/
def get_profiles (db : DB) (memberId : Nat) (limit : Nat) : List ProfileRow :=
  ((db.profile.filter
      (fun p => p.member_id == memberId && db.member.contains memberId)).take limit)

/-- Outcome of `ProfileCog.select_profile`: the chosen profile (`none` means
the `NoChoice` exception was raised), and whether the interactive path (a
`SelectProfileView` sent to the channel) was used at all. -/
structure SelectResult where
  profile : Option ProfileRow
  interactive : Bool
deriving DecidableEq, Repr

/-- `ProfileCog.select_profile`: fetch the member's profiles; if exactly one
exists return it immediately with no interaction; otherwise send a
`SelectProfileView` and wait. `choice` is what the view holds after the wait:
`some c` if the requester picked option `c` before the timeout, `none` if the
timeout elapsed with no value. A missing or unmatched choice raises
`NoChoice`. -/
def select_profile (db : DB) (memberId : Nat) (limit : Nat)
    (choice : Option Nat) : SelectResult :=
  let profiles := get_profiles db memberId limit
  if profiles.length == 1 then
    { profile := profiles.head?, interactive := false }
  else
    match choice with
    | some c => { profile := profiles.find? (fun p => p.id == c), interactive := true }
    | none => { profile := none, interactive := true }

/-- The `/profile nickname` command, `ProfileCog.nickname` of
`src/cogs/profile.py`. Parameters model the external collaborators:
`promptAnswer` the yes/no confirmation prompt, `roleOk` whether the bot's top
role is not below the author's, `choice` the interactive profile selection
outcome, `isPrivate` per-profile privacy, `ratingsOf` the ratings computed for
a profile, `editOk` the display-name mutation outcome. When already bound the
command offers only removal; otherwise it walks the bind path. A `NoChoice`
raised by `select_profile` propagates out of the command (`raised := true`). -/
def nickname_command (db : DB) (memberId guildId : Nat) (memberName : String)
    (limit : Nat) (promptAnswer roleOk : Bool) (choice : Option Nat)
    (isPrivate : Nat → Bool) (ratingsOf : Nat → Ratings) (editOk : Bool) :
    SyncResult :=
  if nickname_exists db memberId then
    if promptAnswer then
      set_or_remove db memberId guildId memberName ⟨none, none, none⟩ none true editOk
    else
      { db := db, editNick := none, messages := [], raised := false }
  else
    if !promptAnswer then
      { db := db, editNick := none, messages := [], raised := false }
    else if !roleOk then
      { db := db, editNick := none
        messages := ["This server's owner needs to move the `OverBot` role higher."]
        raised := false }
    else
      match (select_profile db memberId limit choice).profile with
      | none => { db := db, editNick := none, messages := [], raised := true }
      | some p =>
        if isPrivate p.id then
          { db := db, editNick := none, messages := ["This profile is private."]
            raised := false }
        else
          set_or_remove db memberId guildId memberName (ratingsOf p.id)
            (some p.id) false editOk

/-- Follows the spec's words for the suffix body: the per-role items
"separated by `/`" (used to compare the code's accumulate-then-trim loop
against the spec's description). -/
def spec_join_slash : List String → String
  | [] => ""
  | [a] => a
  | a :: rest => a ++ "/" ++ spec_join_slash rest

/-- The per-role item the encoder emits: role glyph followed by the rating. -/
def roleItem (p : Role × Nat) : String := ROLES p.1 ++ toString p.2

/-- A sample database in the Bound state: account 7 has one linked profile
(id 3) and a nickname binding for it in guild 5. -/
def dbBound : DB :=
  { member := [7]
    profile := [⟨3, 7, "pc", "alice-1234"⟩]
    rating := [⟨3, some 2500, none, some 2000, 1⟩]
    nickname := [⟨7, 5, some 3⟩] }

/-- A sample database in the Unbound state: account 7 has two linked profiles
and no nickname binding. -/
def dbUnbound : DB :=
  { member := [7]
    profile := [⟨3, 7, "pc", "alice-1234"⟩, ⟨4, 7, "xbox", "alice-alt"⟩]
    rating := []
    nickname := [] }

/-- A sample database where account 9 has exactly one linked profile and no
nickname binding. -/
def dbSingle : DB :=
  { member := [9]
    profile := [⟨11, 9, "pc", "bob-5678"⟩]
    rating := []
    nickname := [] }

/-! ## Helper lemmas -/

theorem pySlice_length (s : String) (n : Int) :
    (pySlice s n).length
      = if 0 ≤ n then min n.toNat s.length else s.length - (-n).toNat := by
  unfold pySlice
  split
  · rw [String.length_mk, List.length_take]
    rfl
  · rw [String.length_mk, List.length_take]
    exact Nat.min_eq_left (Nat.sub_le _ _)

theorem pySlice_drop_last_slash (s : String) : pySlice (s ++ "/") (-1) = s := by
  unfold pySlice
  rw [if_neg (by norm_num)]
  apply String.ext
  simp

theorem foldl_slash_shift (rs : List (Role × Nat)) :
    ∀ a : String,
      rs.foldl (fun acc p => acc ++ ROLES p.1 ++ toString p.2 ++ "/") a
        = a ++ rs.foldl (fun acc p => acc ++ ROLES p.1 ++ toString p.2 ++ "/") "" := by
  induction rs with
  | nil => intro a; simp
  | cons p t ih =>
      intro a
      simp only [List.foldl_cons]
      rw [ih (a ++ ROLES p.1 ++ toString p.2 ++ "/"),
        ih ("" ++ ROLES p.1 ++ toString p.2 ++ "/")]
      simp [String.append_assoc]

theorem foldl_slash_eq_join (rs : List (Role × Nat)) (h : rs ≠ []) :
    rs.foldl (fun acc p => acc ++ ROLES p.1 ++ toString p.2 ++ "/") ""
      = spec_join_slash (rs.map roleItem) ++ "/" := by
  induction rs with
  | nil => exact absurd rfl h
  | cons p t ih =>
      cases t with
      | nil => simp [spec_join_slash, roleItem]
      | cons q u =>
          rw [List.foldl_cons, foldl_slash_shift (q :: u), ih (by simp)]
          simp [spec_join_slash, roleItem, String.append_assoc]

theorem suffix_of_eq_spec (rs : List (Role × Nat)) (h : rs ≠ []) :
    suffix_of rs = "[" ++ spec_join_slash (rs.map roleItem) ++ "]" := by
  show "[" ++ pySlice
        (rs.foldl (fun acc p => acc ++ ROLES p.1 ++ toString p.2 ++ "/") "") (-1)
      ++ "]" = _
  rw [foldl_slash_eq_join rs h, pySlice_drop_last_slash]

theorem resolve_ratings_roles (r : Ratings) :
    (resolve_ratings r).map Prod.fst
      = canonicalRoles.filter (fun ro => (roleRating r ro).isSome) := by
  obtain ⟨t, o, s⟩ := r
  cases t <;> cases o <;> cases s <;> rfl

theorem generate_unranked (memberName : String) (r : Ratings) (L : Nat)
    (h : resolve_ratings r = []) :
    generate memberName r L = pySlice memberName 21 ++ " [Unranked]" := by
  unfold generate
  rw [h]
  rfl

theorem generate_ranked (memberName : String) (r : Ratings) (L : Nat)
    (h : resolve_ratings r ≠ []) :
    generate memberName r L
      = pySlice memberName
          ((L : Int) - ((suffix_of (resolve_ratings r)).length : Int) - 1)
        ++ " " ++ suffix_of (resolve_ratings r) := by
  unfold generate
  cases hrr : resolve_ratings r with
  | nil => exact absurd hrr h
  | cons a l =>
      simp

theorem nickname_exists_filter_self (l : List NicknameRow) (m : Nat) :
    (l.filter (fun row => row.id != m)).any (fun row => row.id == m) = false := by
  induction l with
  | nil => rfl
  | cons a t ih => by_cases hx : a.id = m <;> simp [List.filter_cons, hx, ih]

/-! ## Sanity checks against the spec's concrete examples -/

theorem generate_example_tank :
    generate "Alice" ⟨some 1000, none, none⟩ 32 = "Alice [🛡1000]" := by decide

theorem generate_example_unranked :
    generate "Alice" ⟨none, none, none⟩ 32 = "Alice [Unranked]" := by decide

theorem generate_example_two_roles :
    generate "Bob" ⟨some 1000, none, some 2500⟩ 32 = "Bob [🛡1000/⚕2500]" := by decide

/-! ## Claim theorems -/

/-- C1 is false as stated: at `maxLength = 11 = len("[Unranked]") + 1` the
unranked branch still truncates the base name to 21 characters, producing a
32-character result; and a ranked map whose suffix is 11 characters long makes
`x` negative, where `name[:x]` keeps all but the last character instead of
truncating, producing a 15-character result. -/
theorem C1_counterexample :
    ¬ ((generate "AAAAAAAAAAAAAAAAAAAAA" ⟨none, none, none⟩ 11).length ≤ 11)
    ∧ ¬ ((generate "AAAA" ⟨some 12345678, none, none⟩ 11).length ≤ 11) := by
  decide

/-- C1 (amended): the encoder result has length at most `L` whenever the parts
fit: for an empty rating map whenever `L ≥ 32` (the unranked branch truncates
the base name to the fixed constant 21 = 32 − len(" [Unranked]") regardless of
`L`), and for a non-empty rating map whenever `len(suffix) + 1 ≤ L`. The
encoder itself is a total function: it never raises for any input length. -/
theorem C1_encode_length_bound (memberName : String) (r : Ratings) (L : Nat)
    (h : (resolve_ratings r = [] ∧ 32 ≤ L)
       ∨ (resolve_ratings r ≠ [] ∧ (suffix_of (resolve_ratings r)).length + 1 ≤ L)) :
    (generate memberName r L).length ≤ L := by
  rcases h with ⟨he, hL⟩ | ⟨hne, hfit⟩
  · rw [generate_unranked memberName r L he, String.length_append, pySlice_length,
      if_pos (by norm_num : (0 : Int) ≤ 21)]
    have h1 : ((21 : Int)).toNat = 21 := rfl
    have h2 : (" [Unranked]" : String).length = 11 := rfl
    rw [h1, h2]
    omega
  · rw [generate_ranked memberName r L hne, String.length_append,
      String.length_append, pySlice_length]
    set k := (suffix_of (resolve_ratings r)).length with hk
    have hs : (" " : String).length = 1 := rfl
    rw [hs, if_pos (by omega : (0 : Int) ≤ (L : Int) - (k : Int) - 1)]
    have ht : ((L : Int) - (k : Int) - 1).toNat = L - k - 1 := by omega
    rw [ht]
    omega

/-- C1 witness: the amended bound evaluated at a concrete unranked input. -/
theorem C1_encode_length_bound_witness :
    (resolve_ratings ⟨none, none, none⟩ = [] ∧ 32 ≤ 32)
    ∧ (generate "Alice" ⟨none, none, none⟩ 32).length ≤ 32 :=
  ⟨⟨rfl, by norm_num⟩,
    C1_encode_length_bound "Alice" ⟨none, none, none⟩ 32 (Or.inl ⟨rfl, by norm_num⟩)⟩

/-- C2 is false as stated: with a 50-character base name, `ratings = {tank: 1}`
and `maxLength = 4`, the room `x = 4 − len("[🛡1]") − 1 = −1` is negative, but
the base-name portion is not empty — Python's `name[:-1]` keeps 49 characters,
so the result has length 54, not the claimed `0 + 1 + 4`. -/
theorem C2_counterexample :
    (suffix_of (resolve_ratings ⟨some 1, none, none⟩)).length = 4
    ∧ ¬ (generate (String.mk (List.replicate 50 'A')) ⟨some 1, none, none⟩ 4
          = pySlice (String.mk (List.replicate 50 'A'))
              (max 0 ((4 : Int)
                - ((suffix_of (resolve_ratings ⟨some 1, none, none⟩)).length : Int) - 1))
            ++ " " ++ suffix_of (resolve_ratings ⟨some 1, none, none⟩))
    ∧ (generate (String.mk (List.replicate 50 'A')) ⟨some 1, none, none⟩ 4).length = 54 := by
  decide

/-- C2 (amended): for every non-empty rating map the result is
`name[:x] + " " + suffix` with `x = maxLength − len(suffix) − 1` under Python
slice semantics: when `x ≥ 0` the base-name portion has length
`min(len(name), x)`; when `x < 0` the slice drops only the last `|x|`
characters, leaving `len(name) − |x|` (clamped at 0) characters rather than
zero. -/
theorem C2_base_truncation (memberName : String) (r : Ratings) (L : Nat)
    (h : resolve_ratings r ≠ []) :
    generate memberName r L
        = pySlice memberName
            ((L : Int) - ((suffix_of (resolve_ratings r)).length : Int) - 1)
          ++ " " ++ suffix_of (resolve_ratings r)
    ∧ (pySlice memberName
          ((L : Int) - ((suffix_of (resolve_ratings r)).length : Int) - 1)).length
        = (if 0 ≤ (L : Int) - ((suffix_of (resolve_ratings r)).length : Int) - 1
           then min ((L : Int) - ((suffix_of (resolve_ratings r)).length : Int) - 1).toNat
                  memberName.length
           else memberName.length
             - (-((L : Int) - ((suffix_of (resolve_ratings r)).length : Int) - 1)).toNat) :=
  ⟨generate_ranked memberName r L h, pySlice_length memberName _⟩

/-- C2 witness: the amended decomposition evaluated at a concrete input. -/
theorem C2_base_truncation_witness :
    resolve_ratings ⟨some 1000, none, none⟩ ≠ []
    ∧ (generate "Alice" ⟨some 1000, none, none⟩ 32
          = pySlice "Alice"
              ((32 : Int) - ((suffix_of (resolve_ratings ⟨some 1000, none, none⟩)).length : Int) - 1)
            ++ " " ++ suffix_of (resolve_ratings ⟨some 1000, none, none⟩)
      ∧ (pySlice "Alice"
            ((32 : Int) - ((suffix_of (resolve_ratings ⟨some 1000, none, none⟩)).length : Int) - 1)).length
          = (if 0 ≤ (32 : Int) - ((suffix_of (resolve_ratings ⟨some 1000, none, none⟩)).length : Int) - 1
             then min ((32 : Int) - ((suffix_of (resolve_ratings ⟨some 1000, none, none⟩)).length : Int) - 1).toNat
                    ("Alice" : String).length
             else ("Alice" : String).length
               - (-((32 : Int) - ((suffix_of (resolve_ratings ⟨some 1000, none, none⟩)).length : Int) - 1)).toNat)) :=
  ⟨by decide, C2_base_truncation "Alice" ⟨some 1000, none, none⟩ 32 (by decide)⟩

/-- C5 is false as stated: at `maxLength = 12` the unranked branch still
truncates a 25-character base name to 21 characters (the literal in the
source), not to `12 − len(" [Unranked]") = 1` as the claim's formula
requires. -/
theorem C5_counterexample :
    ¬ (generate (String.mk (List.replicate 25 'A')) ⟨none, none, none⟩ 12
        = pySlice (String.mk (List.replicate 25 'A'))
            ((12 : Int) - ((" [Unranked]" : String).length : Int))
          ++ " [Unranked]") := by
  decide

/-- C5 (amended): for every rating map with no entries the result equals
`truncate(baseName, 21) + " [Unranked]"` for every `maxLength` — the
truncation width is the literal 21 (= 32 − len(" [Unranked]")), so the
spec's formula holds exactly when `maxLength = 32`; and the result always
ends with the literal substring `"[Unranked]"`. -/
theorem C5_unranked_shape (memberName : String) (r : Ratings) (L : Nat)
    (h : resolve_ratings r = []) :
    generate memberName r L = pySlice memberName 21 ++ " [Unranked]"
    ∧ ("[Unranked]" : String).data <:+ (generate memberName r L).data
    ∧ (L = 32 →
        generate memberName r L
          = pySlice memberName ((L : Int) - ((" [Unranked]" : String).length : Int))
            ++ " [Unranked]") := by
  have hg := generate_unranked memberName r L h
  refine ⟨hg, ?_, ?_⟩
  · rw [hg]
    refine ⟨(pySlice memberName 21).data ++ [' '], ?_⟩
    rw [String.data_append, List.append_assoc]
    rfl
  · intro hL
    subst hL
    rw [hg]
    have hc : ((32 : Nat) : Int) - ((" [Unranked]" : String).length : Int) = 21 := by decide
    rw [hc]

/-- C5 witness: the amended unranked shape evaluated at a concrete input. -/
theorem C5_unranked_shape_witness :
    resolve_ratings ⟨none, none, none⟩ = []
    ∧ (generate "Alice" ⟨none, none, none⟩ 32 = pySlice "Alice" 21 ++ " [Unranked]"
      ∧ ("[Unranked]" : String).data <:+ (generate "Alice" ⟨none, none, none⟩ 32).data
      ∧ (32 = 32 →
          generate "Alice" ⟨none, none, none⟩ 32
            = pySlice "Alice" ((32 : Int) - ((" [Unranked]" : String).length : Int))
              ++ " [Unranked]")) :=
  ⟨rfl, C5_unranked_shape "Alice" ⟨none, none, none⟩ 32 rfl⟩

/-- C6: for every non-empty rating map the result is the truncated base name,
a single space, and the suffix; the suffix is the roles present, each rendered
as role glyph followed by the rating, separated by `/` and wrapped in
`[`…`]`; and the roles listed are exactly those with a rating present, in the
fixed canonical order tank, offense, support. -/
theorem C6_suffix_structure (memberName : String) (r : Ratings) (L : Nat)
    (h : resolve_ratings r ≠ []) :
    generate memberName r L
        = pySlice memberName
            ((L : Int) - ((suffix_of (resolve_ratings r)).length : Int) - 1)
          ++ " " ++ suffix_of (resolve_ratings r)
    ∧ suffix_of (resolve_ratings r)
        = "[" ++ spec_join_slash ((resolve_ratings r).map roleItem) ++ "]"
    ∧ (resolve_ratings r).map Prod.fst
        = canonicalRoles.filter (fun ro => (roleRating r ro).isSome) :=
  ⟨generate_ranked memberName r L h, suffix_of_eq_spec _ h, resolve_ratings_roles r⟩

/-- C6 witness: the suffix structure evaluated at the spec's two-role example
(tank and support present, offense absent). -/
theorem C6_suffix_structure_witness :
    resolve_ratings ⟨some 1000, none, some 2500⟩ ≠ []
    ∧ (generate "Bob" ⟨some 1000, none, some 2500⟩ 32
          = pySlice "Bob"
              ((32 : Int) - ((suffix_of (resolve_ratings ⟨some 1000, none, some 2500⟩)).length : Int) - 1)
            ++ " " ++ suffix_of (resolve_ratings ⟨some 1000, none, some 2500⟩)
      ∧ suffix_of (resolve_ratings ⟨some 1000, none, some 2500⟩)
          = "[" ++ spec_join_slash ((resolve_ratings ⟨some 1000, none, some 2500⟩).map roleItem) ++ "]"
      ∧ (resolve_ratings ⟨some 1000, none, some 2500⟩).map Prod.fst
          = canonicalRoles.filter (fun ro => (roleRating ⟨some 1000, none, some 2500⟩ ro).isSome)) :=
  ⟨by decide, C6_suffix_structure "Bob" ⟨some 1000, none, some 2500⟩ 32 (by decide)⟩

/-- C3: for every account in the Bound state, `unbind`
(`set_or_remove(remove=True)`) deletes the account's `nickname` rows whether
the external mutation succeeds (`ok1`) or fails, and a bind immediately
followed by an unbind for the same account leaves no `nickname` row for it,
for every combination of mutation outcomes on the two calls. -/
theorem C3_unbind_always_deletes (db : DB) (m g : Nat) (memberName : String)
    (r : Ratings) (pid : Nat) (ok1 ok2 : Bool)
    (h : nickname_exists db m = true) :
    nickname_exists (set_or_remove db m g memberName r none true ok1).db m = false
    ∧ nickname_exists
        (set_or_remove (set_or_remove db m g memberName r (some pid) false ok1).db
          m g memberName r none true ok2).db m = false := by
  constructor <;>
    simp [set_or_remove, nickname_exists, nickname_exists_filter_self]

/-- C3 witness: bound account 7 of `dbBound`, with the external mutation
failing on both calls. -/
theorem C3_unbind_always_deletes_witness :
    nickname_exists dbBound 7 = true
    ∧ (nickname_exists
          (set_or_remove dbBound 7 5 "Alice" ⟨none, none, none⟩ none true false).db 7 = false
      ∧ nickname_exists
          (set_or_remove
            (set_or_remove dbBound 7 5 "Alice" ⟨none, none, none⟩ (some 3) false false).db
            7 5 "Alice" ⟨none, none, none⟩ none true false).db 7 = false) :=
  ⟨by decide,
    C3_unbind_always_deletes dbBound 7 5 "Alice" ⟨none, none, none⟩ 3 false false (by decide)⟩

/-- C4: a `bind` from the Unbound state whose external mutation fails with
`discord.HTTPException` still persists the `nickname` row, and the caller is
told both outcomes: the mutation failure message and the persistence
confirmation. -/
theorem C4_bind_persists_reports (db : DB) (m g : Nat) (memberName : String)
    (r : Ratings) (pid : Nat) (h : nickname_exists db m = false) :
    nickname_exists (set_or_remove db m g memberName r (some pid) false false).db m = true
    ∧ (⟨m, g, some pid⟩ : NicknameRow)
        ∈ (set_or_remove db m g memberName r (some pid) false false).db.nickname
    ∧ (set_or_remove db m g memberName r (some pid) false false).messages
        = [editFailedMsg, "Nickname successfully set."] := by
  refine ⟨?_, ?_, ?_⟩ <;> simp [set_or_remove, nickname_exists, editFailedMsg]

/-- C4 witness: unbound account 7 of `dbUnbound` binding profile 3 while the
mutation fails. -/
theorem C4_bind_persists_reports_witness :
    nickname_exists dbUnbound 7 = false
    ∧ (nickname_exists
          (set_or_remove dbUnbound 7 5 "Alice" ⟨none, none, none⟩ (some 3) false false).db 7 = true
      ∧ (⟨7, 5, some 3⟩ : NicknameRow)
          ∈ (set_or_remove dbUnbound 7 5 "Alice" ⟨none, none, none⟩ (some 3) false false).db.nickname
      ∧ (set_or_remove dbUnbound 7 5 "Alice" ⟨none, none, none⟩ (some 3) false false).messages
          = [editFailedMsg, "Nickname successfully set."]) :=
  ⟨by decide,
    C4_bind_persists_reports dbUnbound 7 5 "Alice" ⟨none, none, none⟩ 3 (by decide)⟩

/-- C7: when the account is already Bound, the `/profile nickname` command
never performs a bind: the resulting `nickname` table is either unchanged (the
removal prompt declined) or the account's rows deleted (unbind confirmed), and
every surviving row already existed — no row is created or mutated. -/
theorem C7_bound_rejects_bind (db : DB) (m g : Nat) (memberName : String)
    (limit : Nat) (promptAnswer roleOk : Bool) (choice : Option Nat)
    (isPrivate : Nat → Bool) (ratingsOf : Nat → Ratings) (editOk : Bool)
    (h : nickname_exists db m = true) :
    (nickname_command db m g memberName limit promptAnswer roleOk choice
        isPrivate ratingsOf editOk).db.nickname
      = (if promptAnswer then db.nickname.filter (fun row => row.id != m)
         else db.nickname)
    ∧ ∀ row ∈ (nickname_command db m g memberName limit promptAnswer roleOk choice
        isPrivate ratingsOf editOk).db.nickname,
        row ∈ db.nickname := by
  constructor
  · cases hp : promptAnswer <;> simp [nickname_command, h, hp, set_or_remove]
  · intro row hr
    cases hp : promptAnswer
    · simpa [nickname_command, h, hp] using hr
    · simp [nickname_command, h, hp, set_or_remove] at hr
      exact hr.1

/-- C7 witness: bound account 7 of `dbBound` with the removal prompt
confirmed. -/
theorem C7_bound_rejects_bind_witness :
    nickname_exists dbBound 7 = true
    ∧ ((nickname_command dbBound 7 5 "Alice" 10 true true none
          (fun _ => false) (fun _ => ⟨none, none, none⟩) true).db.nickname
        = (if true then dbBound.nickname.filter (fun row => row.id != 7)
           else dbBound.nickname)
      ∧ ∀ row ∈ (nickname_command dbBound 7 5 "Alice" 10 true true none
          (fun _ => false) (fun _ => ⟨none, none, none⟩) true).db.nickname,
          row ∈ dbBound.nickname) :=
  ⟨by decide,
    C7_bound_rejects_bind dbBound 7 5 "Alice" 10 true true none
      (fun _ => false) (fun _ => ⟨none, none, none⟩) true (by decide)⟩

/-- C8: with more than one candidate profile and a timeout with no choice,
`select_profile` raises `NoChoice` (profile `none`) after taking the
interactive path, and the command that consumed it performs no write — the
database is unchanged; with exactly one candidate, the profile is returned
immediately and the interactive path is never entered. -/
theorem C8_select_profile (db : DB) (m g limit : Nat) (memberName : String)
    (isPrivate : Nat → Bool) (ratingsOf : Nat → Ratings) (editOk : Bool) :
    (1 < (get_profiles db m limit).length →
        select_profile db m limit none = ⟨none, true⟩)
    ∧ ((get_profiles db m limit).length = 1 →
        ∀ c : Option Nat,
          select_profile db m limit c = ⟨(get_profiles db m limit).head?, false⟩)
    ∧ (1 < (get_profiles db m limit).length → nickname_exists db m = false →
        (nickname_command db m g memberName limit true true none
            isPrivate ratingsOf editOk).db = db
        ∧ (nickname_command db m g memberName limit true true none
            isPrivate ratingsOf editOk).raised = true) := by
  have hsel : 1 < (get_profiles db m limit).length →
      select_profile db m limit none = ⟨none, true⟩ := by
    intro h1
    have hne : ((get_profiles db m limit).length == 1) = false := by
      simp only [beq_eq_false_iff_ne, ne_eq]
      omega
    simp [select_profile, hne]
  refine ⟨hsel, ?_, ?_⟩
  · intro h1 c
    simp [select_profile, h1]
  · intro h1 h2
    have hp := hsel h1
    constructor <;> simp [nickname_command, h2, hp]

/-- C8 witness: the two-profile account 7 of `dbUnbound` times out with no
choice, and the one-profile account 9 of `dbSingle` gets its profile with no
interaction. -/
theorem C8_select_profile_witness :
    (1 < (get_profiles dbUnbound 7 10).length
      ∧ select_profile dbUnbound 7 10 none = ⟨none, true⟩
      ∧ (nickname_command dbUnbound 7 5 "Alice" 10 true true none
            (fun _ => false) (fun _ => ⟨none, none, none⟩) true).db = dbUnbound
      ∧ (nickname_command dbUnbound 7 5 "Alice" 10 true true none
            (fun _ => false) (fun _ => ⟨none, none, none⟩) true).raised = true)
    ∧ ((get_profiles dbSingle 9 10).length = 1
      ∧ select_profile dbSingle 9 10 none = ⟨(get_profiles dbSingle 9 10).head?, false⟩) :=
  ⟨⟨by decide,
      (C8_select_profile dbUnbound 7 5 10 "Alice"
        (fun _ => false) (fun _ => ⟨none, none, none⟩) true).1 (by decide),
      ((C8_select_profile dbUnbound 7 5 10 "Alice"
        (fun _ => false) (fun _ => ⟨none, none, none⟩) true).2.2 (by decide) (by decide)).1,
      ((C8_select_profile dbUnbound 7 5 10 "Alice"
        (fun _ => false) (fun _ => ⟨none, none, none⟩) true).2.2 (by decide) (by decide)).2⟩,
    ⟨by decide,
      (C8_select_profile dbSingle 9 5 10 "Bob"
        (fun _ => false) (fun _ => ⟨none, none, none⟩) true).2.1 (by decide) none⟩⟩

/-- C9: `refresh` (`Nickname.update`) is a no-op when no `nickname` row exists
for the account, and in every case — including a failing external mutation —
it raises nothing and surfaces no message to the caller. -/
theorem C9_refresh_swallows (db : DB) (m : Nat) (memberName : String)
    (r : Ratings) (editOk : Bool) :
    (nickname_exists db m = false →
        update db m memberName r editOk
          = { db := db, editNick := none, messages := [], raised := false })
    ∧ (update db m memberName r editOk).raised = false
    ∧ (update db m memberName r editOk).messages = [] := by
  cases hb : nickname_exists db m <;> simp [update, hb]

/-- C9 witness: unbound account 7 of `dbUnbound` with a failing mutation. -/
theorem C9_refresh_swallows_witness :
    nickname_exists dbUnbound 7 = false
    ∧ update dbUnbound 7 "Alice" ⟨none, none, none⟩ false
        = { db := dbUnbound, editNick := none, messages := [], raised := false } :=
  ⟨by decide,
    (C9_refresh_swallows dbUnbound 7 "Alice" ⟨none, none, none⟩ false).1 (by decide)⟩

/-- C10: `refresh` (`Nickname.update`) writes to no persistent table — the
`nickname`, `profile`, `rating` and `member` tables are exactly unchanged in
every case (no-op, success, or failing mutation) — and its only effect is the
external display-name edit, attempted exactly when a binding exists. -/
theorem C10_refresh_frame (db : DB) (m : Nat) (memberName : String)
    (r : Ratings) (editOk : Bool) :
    (update db m memberName r editOk).db.nickname = db.nickname
    ∧ (update db m memberName r editOk).db.profile = db.profile
    ∧ (update db m memberName r editOk).db.rating = db.rating
    ∧ (update db m memberName r editOk).db.member = db.member
    ∧ (update db m memberName r editOk).editNick
        = (if nickname_exists db m then some (some (generate32 memberName r))
           else none) := by
  cases hb : nickname_exists db m <;> simp [update, hb]

end Overcord
